import Mathlib

/-!
Verification of the scoring, attempt-recording, statistics-aggregation and
leaderboard logic of the Online-quiz-maker repository, as a shallow
embedding in Lean.

Sources embedded here:
- the scoring and submission flow of handleSubmitQuiz
  (src/project/src/pages/Quiz/EditQuiz.tsx, lines 638-689);
- the stored procedure update_quiz_stats
  (src/project/supabase/migrations/20250629051205_bold_smoke.sql);
- the stored procedure get_user_leaderboard (src/unnamed/part_003,
  lines 141-186);
- the attempt read-back in fetchResults (QuizResults, src/project/src/
  pages/Quiz/EditQuiz.tsx region around lines 965-1001).

Modelling conventions: JavaScript numbers and the SQL numeric type are
modelled as exact rationals; SQL NULL values are modelled with Option;
database tables are lists of rows; timestamps are integers (an epoch
offset in seconds).
-/

/-- A question as read by the scoring loop of handleSubmitQuiz: only the
id and the correct_answer index are consulted there. -/
structure Question where
  id : Nat
  correct_answer : Nat
deriving DecidableEq

/-- The answers object built by handleAnswerSelect: a finite mapping from
question id to chosen option index, modelled as an association list with
at most one binding per key. -/
abbrev AnswerMap := List (Nat × Nat)

/-- The JS lookup answers[question.id]: none models undefined (no entry). -/
def lookupAnswer (answers : AnswerMap) (qid : Nat) : Option Nat :=
  List.lookup qid answers

/-- The counting loop of handleSubmitQuiz:
questions.forEach increments correctAnswers exactly when
answers[question.id] === question.correct_answer; a missing entry
(undefined) is never strictly equal to a number, so it does not count. -/
def correctCount (questions : List Question) (answers : AnswerMap) : Nat :=
  questions.foldl
    (fun acc q => if lookupAnswer answers q.id = some q.correct_answer then acc + 1 else acc) 0

/-- Math.round((correctAnswers / questions.length) * 100) from
handleSubmitQuiz, with JS doubles modelled as exact rationals.
When questions.length = 0 the JS division is 0/0 = NaN (correctAnswers is
necessarily 0 then) and Math.round(NaN) = NaN; the NaN outcome is
modelled as none.  Otherwise Math.round x = Int.floor (x + 1/2)
(round half toward positive infinity, which is round-half-up on the
nonnegative values arising here). -/
def computeScore (questions : List Question) (answers : AnswerMap) : Option ℤ :=
  if questions.length = 0 then none
  else some (Int.floor (((correctCount questions answers : ℚ) / questions.length) * 100 + 1/2))

/-- The error taxonomy named by the specification for the scoring engine. -/
inductive ScoringError where
  | invalidInput
deriving DecidableEq

/-- The scoring block of handleSubmitQuiz viewed as a fallible step.  The
block between the forEach loop and the Math.round call contains no throw
statement and no operation that can raise, so the step always completes
normally with the computed (possibly NaN) score. -/
def scoreStep (questions : List Question) (answers : AnswerMap) :
    Except ScoringError (Option ℤ) :=
  Except.ok (computeScore questions answers)

/-- Modelled from the spec: the round-half-up rounding rule named in
section 4.1 of the specification, for comparison with the code. -/
def roundHalfUp (x : ℚ) : ℤ := Int.floor (x + 1/2)

/-- The columns of the quizzes table read or written by update_quiz_stats.
The average_score column is declared numeric DEFAULT 0 with no NOT NULL
constraint, so it is nullable: none models SQL NULL. -/
structure QuizRow where
  id : Nat
  total_attempts : ℤ
  average_score : Option ℚ
deriving DecidableEq

/-- A row of the quiz_attempts table. -/
structure AttemptRow where
  id : Nat
  quiz_id : Nat
  user_id : Nat
  score : ℤ
  total_questions : Nat
  time_taken : ℤ
  answers : AnswerMap
  completed_at : ℤ
deriving DecidableEq

/-- The database state relevant to the aggregation logic. -/
structure DB where
  quizzes : List QuizRow
  quiz_attempts : List AttemptRow
deriving DecidableEq

/-- SQL AVG over a list of integers: NULL (none) on the empty set,
otherwise the exact mean. -/
def sqlAvg (xs : List ℤ) : Option ℚ :=
  if xs.length = 0 then none else some ((xs.sum : ℚ) / xs.length)

/-- SELECT score FROM quiz_attempts WHERE quiz_attempts.quiz_id = quiz_id. -/
def quizScores (db : DB) (quiz_id : Nat) : List ℤ :=
  (db.quiz_attempts.filter (fun qa => decide (qa.quiz_id = quiz_id))).map AttemptRow.score

/-- The stored procedure update_quiz_stats(quiz_id, new_score): UPDATE the
quizzes rows WHERE id = quiz_id, setting total_attempts to
total_attempts + 1 and average_score to the AVG of the score column over
the quiz_attempts rows of that quiz.  The body never reads new_score. -/
def update_quiz_stats (db : DB) (quiz_id : Nat) (new_score : ℤ) : DB :=
  { db with
    quizzes := db.quizzes.map fun row =>
      if row.id = quiz_id then
        { row with
          total_attempts := row.total_attempts + 1,
          average_score := sqlAvg (quizScores db quiz_id) }
      else row }

/-- The user-visible effects of one handleSubmitQuiz run: whether the
attempt insert went through, whether console.warn fired for a failed
stats update, and which toast was shown. -/
structure SubmitOutcome where
  attemptSaved : Bool
  statsWarning : Bool
  successToast : Bool
  errorToast : Bool
deriving DecidableEq

/-- INSERT INTO quiz_attempts. -/
def insertAttempt (db : DB) (att : AttemptRow) : DB :=
  { db with quiz_attempts := db.quiz_attempts ++ [att] }

/-- The persistence part of handleSubmitQuiz.  The two Boolean flags
inject the two possible external failures: the attempt insert failing
(error thrown, caught by the catch block, error toast) and the
update_quiz_stats RPC failing (updateError non-null: console.warn only,
then the success toast and navigation still run). -/
def handleSubmitQuiz (db : DB) (att : AttemptRow) (insertFails statsRpcFails : Bool) :
    DB × SubmitOutcome :=
  if insertFails then
    (db, { attemptSaved := false, statsWarning := false,
           successToast := false, errorToast := true })
  else
    let db1 := insertAttempt db att
    if statsRpcFails then
      (db1, { attemptSaved := true, statsWarning := true,
              successToast := true, errorToast := false })
    else
      (update_quiz_stats db1 att.quiz_id att.score,
       { attemptSaved := true, statsWarning := false,
         successToast := true, errorToast := false })

/-- An attempt row carrying a given quiz id and score; the remaining
columns are irrelevant to the aggregate statistics. -/
def mkAttempt (quiz_id : Nat) (s : ℤ) : AttemptRow :=
  { id := 0, quiz_id := quiz_id, user_id := 0, score := s,
    total_questions := 0, time_taken := 0, answers := [], completed_at := 0 }

/-- N sequential successful submissions for one quiz: each inserts the
attempt row and then runs update_quiz_stats, exactly as the success path
of handleSubmitQuiz pairs them. -/
def applyScores (db : DB) (quiz_id : Nat) (scores : List ℤ) : DB :=
  scores.foldl (fun d s => (handleSubmitQuiz d (mkAttempt quiz_id s) false false).1) db

/-- The attempt read-back of fetchResults: SELECT * FROM quiz_attempts
WHERE id = attemptId with .single(), which succeeds exactly when one row
matches. -/
def fetchAttempt (db : DB) (attemptId : Nat) : Option AttemptRow :=
  match db.quiz_attempts.filter (fun r => decide (r.id = attemptId)) with
  | [r] => some r
  | _ => none

/-- A sequence of further handleSubmitQuiz runs, each with its own attempt
row and failure flags: the only normal-flow operations that touch the
quiz_attempts table. -/
def runSubmissions (db : DB) (subs : List (AttemptRow × Bool × Bool)) : DB :=
  subs.foldl (fun d s => (handleSubmitQuiz d s.1 s.2.1 s.2.2).1) db

/-- The WHERE clause of get_user_leaderboard: CASE WHEN the filter is
month then completed_at >= date_trunc month of NOW(), WHEN week then
completed_at >= date_trunc week of NOW(), ELSE TRUE.  The two truncated
instants are passed in as monthStart and weekStart. -/
def matchesWindow (time_filter : String) (monthStart weekStart completed_at : ℤ) : Bool :=
  if time_filter = "month" then decide (monthStart ≤ completed_at)
  else if time_filter = "week" then decide (weekStart ≤ completed_at)
  else true

/-- The filtered quiz_attempts rows feeding the user_scores CTE. -/
def windowFiltered (attempts : List AttemptRow) (time_filter : String)
    (monthStart weekStart : ℤ) : List AttemptRow :=
  attempts.filter (fun qa => matchesWindow time_filter monthStart weekStart qa.completed_at)

/-- One row of the user_scores CTE: GROUP BY user_id with SUM(score),
COUNT(id) and AVG(score). -/
structure UserScore where
  user_id : Nat
  total_score : ℤ
  quiz_count : ℤ
  average_score : ℚ

/-- The grouping keys in order of first appearance (SQL leaves the group
order unspecified; the final ORDER BY makes the choice immaterial). -/
def distinctUsers : List Nat → List Nat → List Nat
  | [], _ => []
  | u :: rest, seen =>
      if seen.contains u then distinctUsers rest seen
      else u :: distinctUsers rest (u :: seen)

/-- The user_scores CTE over the filtered rows.  Every listed group is
nonempty (its key occurs in the rows), so the AVG never divides by zero. -/
def userScores (rows : List AttemptRow) : List UserScore :=
  (distinctUsers (rows.map AttemptRow.user_id) []).map fun u =>
    let grp := (rows.filter (fun qa => decide (qa.user_id = u))).map AttemptRow.score
    { user_id := u, total_score := grp.sum, quiz_count := grp.length,
      average_score := (grp.sum : ℚ) / grp.length }

/-- One output row of get_user_leaderboard. -/
structure LeaderboardEntry where
  user_id : Nat
  total_score : ℤ
  quiz_count : ℤ
  average_score : ℚ
  rank : ℤ

/-- RANK() OVER (ORDER BY total_score DESC): one more than the number of
rows with strictly greater total_score.  Tied rows share a rank and the
following distinct total is offset by the number of tied rows. -/
def rankOf (us : List UserScore) (total : ℤ) : ℤ :=
  1 + ((us.filter (fun t => decide (total < t.total_score))).length : ℤ)

/-- The final SELECT of get_user_leaderboard, attaching the window rank to
one user_scores row. -/
def toEntry (us : List UserScore) (s : UserScore) : LeaderboardEntry :=
  { user_id := s.user_id, total_score := s.total_score, quiz_count := s.quiz_count,
    average_score := s.average_score, rank := rankOf us s.total_score }

/-- The stored procedure get_user_leaderboard(time_filter): filter the
attempts by the time window, group them per user, attach RANK() by
total_score descending, and ORDER BY rank ascending (tie order among
equal ranks is unspecified in SQL; a stable sort stands in for it). -/
def get_user_leaderboard (attempts : List AttemptRow) (time_filter : String)
    (monthStart weekStart : ℤ) : List LeaderboardEntry :=
  let us := userScores (windowFiltered attempts time_filter monthStart weekStart)
  List.insertionSort (fun a b => a.rank ≤ b.rank) (us.map (toEntry us))

/-- The accumulator form of the scoring loop, related to List.countP. -/
lemma correctCount_eq_countP (questions : List Question) (answers : AnswerMap) :
    correctCount questions answers =
      questions.countP (fun q => decide (lookupAnswer answers q.id = some q.correct_answer)) := by
  suffices h : ∀ (qs : List Question) (n : Nat),
      qs.foldl
        (fun acc q => if lookupAnswer answers q.id = some q.correct_answer then acc + 1 else acc) n
        = n + qs.countP (fun q => decide (lookupAnswer answers q.id = some q.correct_answer)) by
    simpa [correctCount] using h questions 0
  intro qs
  induction qs with
  | nil => intro n; simp
  | cons q rest ih =>
    intro n
    by_cases hq : lookupAnswer answers q.id = some q.correct_answer
    · simp [List.countP_cons, hq, ih]; omega
    · simp [List.countP_cons, hq, ih]

/-- C5: for every non-empty question set and answers map, the computed
score is round(100 * correct_count / len(questions)) under the
round-half-up rounding rule. -/
theorem computeScore_eq_roundHalfUp (questions : List Question) (answers : AnswerMap)
    (h : questions ≠ []) :
    computeScore questions answers =
      some (roundHalfUp (100 * (correctCount questions answers : ℚ) / questions.length)) := by
  have hlen : questions.length ≠ 0 := by simpa using h
  unfold computeScore roundHalfUp
  rw [if_neg hlen]
  congr 2
  ring

/-- The four-question example of the specification: correct answers at
indices 0, 1, 2, 3 and submitted answers 0, 1, 9, 3. -/
def exampleQuestions : List Question :=
  [{ id := 1, correct_answer := 0 }, { id := 2, correct_answer := 1 },
   { id := 3, correct_answer := 2 }, { id := 4, correct_answer := 3 }]

/-- The submitted answers of the example: third answer wrong (9). -/
def exampleAnswers : AnswerMap := [(1, 0), (2, 1), (3, 9), (4, 3)]

/-- C5 witness: the example scores exactly 75 (three of four correct). -/
theorem computeScore_eq_roundHalfUp_witness :
    computeScore exampleQuestions exampleAnswers = some 75 := by
  rw [computeScore_eq_roundHalfUp exampleQuestions exampleAnswers (by decide)]
  have hc : correctCount exampleQuestions exampleAnswers = 3 := by decide
  have hl : exampleQuestions.length = 4 := by decide
  rw [hc, hl]
  norm_num [roundHalfUp]

/-- C3 counterexample: scoring the empty question set with the empty
answers map does not produce InvalidInputError: the scoring block
completes normally. -/
theorem scoreStep_empty_no_invalidInputError :
    scoreStep [] [] ≠ Except.error ScoringError.invalidInput :=
  fun h => Except.noConfusion h

/-- C3 (amended): scoring an empty question set raises no error: for
every answers map the scoring block completes normally, and its value is
NaN (the JS division 0/0), not a numeric score. -/
theorem scoreStep_empty_ok_nan (answers : AnswerMap) :
    scoreStep [] answers = Except.ok none := rfl

/-- C8: a question counts as correct exactly when the answers map binds
its id to its correct_answer; a question whose id has no binding counts
as incorrect; and scoring never raises on a missing binding. -/
theorem correct_iff_answer_matches (questions : List Question) (answers : AnswerMap) :
    (∃ v, scoreStep questions answers = Except.ok v)
    ∧ correctCount questions answers =
        (questions.filter
          (fun q => decide (lookupAnswer answers q.id = some q.correct_answer))).length
    ∧ ∀ q : Question, lookupAnswer answers q.id = none →
        correctCount (q :: questions) answers = correctCount questions answers := by
  refine ⟨⟨computeScore questions answers, rfl⟩, ?_, ?_⟩
  · rw [correctCount_eq_countP, List.countP_eq_length_filter]
  · intro q hq
    rw [correctCount_eq_countP, correctCount_eq_countP, List.countP_cons]
    simp [hq]

/-- C8 witness: adding a question whose id (5) is unanswered leaves the
correct count of the example unchanged. -/
theorem correct_iff_answer_matches_witness :
    correctCount ({ id := 5, correct_answer := 7 } :: exampleQuestions) exampleAnswers
      = correctCount exampleQuestions exampleAnswers :=
  (correct_iff_answer_matches exampleQuestions exampleAnswers).2.2
    { id := 5, correct_answer := 7 } (by decide)

/-- C10: update_quiz_stats never reads its new_score argument, so from
any database state two calls with different scores produce identical
states. -/
theorem update_quiz_stats_ignores_new_score (db : DB) (quiz_id : Nat) (s1 s2 : ℤ) :
    update_quiz_stats db quiz_id s1 = update_quiz_stats db quiz_id s2 := rfl

/-- C6: when the attempt insert succeeds and the statistics RPC fails,
the attempt stays persisted (appended, never rolled back), a console
warning is surfaced, and the run still ends with the success toast and no
error toast. -/
theorem handleSubmitQuiz_statsFailure_nonfatal (db : DB) (att : AttemptRow) :
    ((handleSubmitQuiz db att false true).1).quiz_attempts = db.quiz_attempts ++ [att]
    ∧ (handleSubmitQuiz db att false true).2.attemptSaved = true
    ∧ (handleSubmitQuiz db att false true).2.statsWarning = true
    ∧ (handleSubmitQuiz db att false true).2.successToast = true
    ∧ (handleSubmitQuiz db att false true).2.errorToast = false :=
  ⟨rfl, rfl, rfl, rfl, rfl⟩

/-- A database holding one quiz row (id 1, zero recorded attempts) and no
attempt rows. -/
def zeroAttemptDB : DB :=
  { quizzes := [{ id := 1, total_attempts := 0, average_score := some 0 }],
    quiz_attempts := [] }

/-- C4 counterexample: called for a quiz with zero attempt rows,
update_quiz_stats is neither a no-op nor an error: it increments
total_attempts to 1 and writes SQL NULL into average_score. -/
theorem update_quiz_stats_zero_attempts_counterexample :
    update_quiz_stats zeroAttemptDB 1 50 ≠ zeroAttemptDB
    ∧ (update_quiz_stats zeroAttemptDB 1 50).quizzes
        = [{ id := 1, total_attempts := 1, average_score := none }] := by
  exact ⟨by decide, by decide⟩

/-- C4 (amended): invoked for a quiz with zero attempt rows,
update_quiz_stats performs no division (SQL AVG over the empty set is
NULL), but it is not a no-op and raises no error: it increments
total_attempts by one and writes NULL into average_score, leaving the
attempts table untouched. -/
theorem update_quiz_stats_zero_attempts (db : DB) (row : QuizRow) (quiz_id : Nat) (s : ℤ)
    (hq : db.quizzes = [row]) (hid : row.id = quiz_id)
    (h0 : quizScores db quiz_id = []) :
    (update_quiz_stats db quiz_id s).quizzes
      = [{ row with total_attempts := row.total_attempts + 1, average_score := none }]
    ∧ (update_quiz_stats db quiz_id s).quiz_attempts = db.quiz_attempts := by
  refine ⟨?_, rfl⟩
  simp [update_quiz_stats, hq, hid, sqlAvg, h0]

/-- C4 witness: the amended statement at the concrete one-quiz database. -/
theorem update_quiz_stats_zero_attempts_witness :
    (update_quiz_stats zeroAttemptDB 1 50).quizzes
      = [{ id := 1, total_attempts := 1, average_score := none }] := by
  have h := (update_quiz_stats_zero_attempts zeroAttemptDB
      { id := 1, total_attempts := 0, average_score := some 0 } 1 50 rfl rfl rfl).1
  simpa using h

/-- Inserting an attempt of the same quiz appends its score to the stored
score list of that quiz. -/
lemma quizScores_insertAttempt (db : DB) (att : AttemptRow) (quiz_id : Nat)
    (h : att.quiz_id = quiz_id) :
    quizScores (insertAttempt db att) quiz_id = quizScores db quiz_id ++ [att.score] := by
  simp [quizScores, insertAttempt, List.filter_append, h]

/-- One success-path submission step on a database whose quizzes table
holds the single row of the target quiz. -/
lemma submit_step (db : DB) (row : QuizRow) (quiz_id : Nat) (s : ℤ)
    (hq : db.quizzes = [row]) (hid : row.id = quiz_id) :
    ((handleSubmitQuiz db (mkAttempt quiz_id s) false false).1).quizzes
      = [{ row with
           total_attempts := row.total_attempts + 1,
           average_score := sqlAvg (quizScores db quiz_id ++ [s]) }]
    ∧ quizScores ((handleSubmitQuiz db (mkAttempt quiz_id s) false false).1) quiz_id
      = quizScores db quiz_id ++ [s] := by
  have hins : quizScores (insertAttempt db (mkAttempt quiz_id s)) quiz_id
      = quizScores db quiz_id ++ [s] :=
    quizScores_insertAttempt db (mkAttempt quiz_id s) quiz_id rfl
  constructor
  · show (update_quiz_stats (insertAttempt db (mkAttempt quiz_id s)) quiz_id s).quizzes = _
    simp [update_quiz_stats, insertAttempt, hq, hid, hins]
    simp [quizScores, List.filter_append, mkAttempt]
  · exact hins

/-- The net effect of a nonempty run of success-path submissions on a
single-quiz database: total_attempts grows by the number of submissions
and average_score becomes the AVG over the previously stored scores
followed by the submitted ones, in submission order. -/
lemma applyScores_spec :
    ∀ (scores : List ℤ) (db : DB) (row : QuizRow) (quiz_id : Nat),
      db.quizzes = [row] → row.id = quiz_id → scores ≠ [] →
      (applyScores db quiz_id scores).quizzes
        = [{ id := quiz_id,
             total_attempts := row.total_attempts + scores.length,
             average_score := sqlAvg (quizScores db quiz_id ++ scores) }] := by
  intro scores
  induction scores with
  | nil => intro db row quiz_id _ _ hne; exact absurd rfl hne
  | cons s rest ih =>
    intro db row quiz_id hq hid _
    obtain ⟨h1, h2⟩ := submit_step db row quiz_id s hq hid
    have hfold : applyScores db quiz_id (s :: rest)
        = applyScores ((handleSubmitQuiz db (mkAttempt quiz_id s) false false).1)
            quiz_id rest := rfl
    by_cases hr : rest = []
    · subst hr
      rw [hfold]
      show ((handleSubmitQuiz db (mkAttempt quiz_id s) false false).1).quizzes = _
      rw [h1]
      simp [hid]
    · rw [hfold]
      rw [ih ((handleSubmitQuiz db (mkAttempt quiz_id s) false false).1)
        { row with
          total_attempts := row.total_attempts + 1,
          average_score := sqlAvg (quizScores db quiz_id ++ [s]) } quiz_id h1 hid hr]
      rw [h2]
      simp [List.append_assoc]
      ring

/-- C2: from a quiz with total_attempts = 0 and no stored attempts, N >= 1
paired submissions with scores s_1 .. s_N leave total_attempts = N and
average_score = mean(s_1 .. s_N), and applying any permutation of the
scores yields the identical quizzes table. -/
theorem applyScores_stats_invariant (db : DB) (row : QuizRow) (quiz_id : Nat)
    (scores : List ℤ)
    (hq : db.quizzes = [row]) (hid : row.id = quiz_id)
    (h0 : row.total_attempts = 0) (hnoatt : quizScores db quiz_id = [])
    (hne : scores ≠ []) :
    (applyScores db quiz_id scores).quizzes
      = [{ id := quiz_id, total_attempts := (scores.length : ℤ),
           average_score := some ((scores.sum : ℚ) / scores.length) }]
    ∧ ∀ scores' : List ℤ, scores'.Perm scores →
        (applyScores db quiz_id scores').quizzes
          = (applyScores db quiz_id scores).quizzes := by
  have key : ∀ l : List ℤ, l ≠ [] →
      (applyScores db quiz_id l).quizzes
        = [{ id := quiz_id, total_attempts := (l.length : ℤ),
             average_score := some ((l.sum : ℚ) / l.length) }] := by
    intro l hl
    rw [applyScores_spec l db row quiz_id hq hid hl, h0, hnoatt]
    simp [sqlAvg, hl]
  refine ⟨key scores hne, ?_⟩
  intro scores' hperm
  have hne' : scores' ≠ [] := by
    intro hcon
    exact hne (hcon ▸ hperm.symm).eq_nil
  rw [key scores' hne', key scores hne]
  simp [hperm.length_eq, hperm.sum_eq]

/-- C2 witness: scores 80, 100, 60 against the one-quiz empty database
give total_attempts = 3 and average_score = 80, and the reversed order
60, 100, 80 gives the identical quizzes table. -/
theorem applyScores_stats_invariant_witness :
    (applyScores zeroAttemptDB 1 [80, 100, 60]).quizzes
      = [{ id := 1, total_attempts := 3, average_score := some 80 }]
    ∧ (applyScores zeroAttemptDB 1 [60, 100, 80]).quizzes
      = (applyScores zeroAttemptDB 1 [80, 100, 60]).quizzes := by
  have h := applyScores_stats_invariant zeroAttemptDB
    { id := 1, total_attempts := 0, average_score := some 0 } 1 [80, 100, 60]
    rfl rfl rfl rfl (by decide)
  constructor
  · rw [h.1]
    norm_num
  · exact h.2 [60, 100, 80] (List.reverse_perm [80, 100, 60])

/-- The attempts table after one handleSubmitQuiz run: unchanged when the
insert fails, otherwise the attempt row appended, whatever the stats RPC
outcome. -/
lemma handleSubmitQuiz_attempts (db : DB) (att : AttemptRow) (b1 b2 : Bool) :
    ((handleSubmitQuiz db att b1 b2).1).quiz_attempts
      = db.quiz_attempts ++ (if b1 then [] else [att]) := by
  cases b1 <;> cases b2 <;> simp [handleSubmitQuiz, insertAttempt, update_quiz_stats]

/-- Later submissions whose attempt ids differ from a given id do not
change the rows selected by that id. -/
lemma runSubmissions_filter_id :
    ∀ (subs : List (AttemptRow × Bool × Bool)) (db : DB) (aid : Nat),
      (∀ s ∈ subs, s.1.id ≠ aid) →
      (runSubmissions db subs).quiz_attempts.filter (fun r => decide (r.id = aid))
        = db.quiz_attempts.filter (fun r => decide (r.id = aid)) := by
  intro subs
  induction subs with
  | nil => intro db aid _; rfl
  | cons p rest ih =>
    intro db aid hids
    have hstep : runSubmissions db (p :: rest)
        = runSubmissions ((handleSubmitQuiz db p.1 p.2.1 p.2.2).1) rest := rfl
    rw [hstep, ih _ aid (fun s hs => hids s (List.mem_cons_of_mem p hs))]
    rw [handleSubmitQuiz_attempts, List.filter_append]
    have hnil : (if p.2.1 then ([] : List AttemptRow) else [p.1]).filter
        (fun r => decide (r.id = aid)) = [] := by
      cases hb : p.2.1 <;> simp [hids p (List.mem_cons_self p rest)]
    rw [hnil, List.append_nil]

/-- C9: an attempt recorded by a successful submission reads back by its
id as exactly the row supplied at record time (score, answers and
total_questions included), and later normal-flow submissions with other
attempt ids never modify or remove it. -/
theorem recordAttempt_roundtrip (db : DB) (att : AttemptRow) (statsRpcFails : Bool)
    (subs : List (AttemptRow × Bool × Bool))
    (hfresh : ∀ r ∈ db.quiz_attempts, r.id ≠ att.id)
    (hsubs : ∀ s ∈ subs, s.1.id ≠ att.id) :
    fetchAttempt (runSubmissions ((handleSubmitQuiz db att false statsRpcFails).1) subs)
      att.id = some att
    ∧ (fetchAttempt (runSubmissions ((handleSubmitQuiz db att false statsRpcFails).1) subs)
        att.id).map AttemptRow.score = some att.score
    ∧ (fetchAttempt (runSubmissions ((handleSubmitQuiz db att false statsRpcFails).1) subs)
        att.id).map AttemptRow.answers = some att.answers
    ∧ (fetchAttempt (runSubmissions ((handleSubmitQuiz db att false statsRpcFails).1) subs)
        att.id).map AttemptRow.total_questions = some att.total_questions := by
  have hbase : db.quiz_attempts.filter (fun r => decide (r.id = att.id)) = [] := by
    rw [List.filter_eq_nil_iff]
    intro r hr
    simpa using hfresh r hr
  have hone : ((handleSubmitQuiz db att false statsRpcFails).1).quiz_attempts.filter
      (fun r => decide (r.id = att.id)) = [att] := by
    rw [handleSubmitQuiz_attempts, List.filter_append, hbase]
    simp
  have hfinal := runSubmissions_filter_id subs
    ((handleSubmitQuiz db att false statsRpcFails).1) att.id hsubs
  rw [hone] at hfinal
  have hfetch : fetchAttempt
      (runSubmissions ((handleSubmitQuiz db att false statsRpcFails).1) subs) att.id
      = some att := by
    unfold fetchAttempt
    rw [hfinal]
  exact ⟨hfetch, by rw [hfetch]; rfl, by rw [hfetch]; rfl, by rw [hfetch]; rfl⟩

/-- The concrete attempt used by the round-trip witness. -/
def rtAttempt : AttemptRow :=
  { id := 7, quiz_id := 1, user_id := 2, score := 50, total_questions := 4,
    time_taken := 30, answers := [(1, 0), (2, 1)], completed_at := 100 }

/-- C9 witness: the concrete attempt reads back unchanged after being
recorded against the one-quiz empty database. -/
theorem recordAttempt_roundtrip_witness :
    fetchAttempt (runSubmissions ((handleSubmitQuiz zeroAttemptDB rtAttempt false false).1) [])
      rtAttempt.id = some rtAttempt :=
  (recordAttempt_roundtrip zeroAttemptDB rtAttempt false []
    (by simp [zeroAttemptDB]) (by simp)).1

/-- C7: the leaderboard filter keeps a row for the window all
unconditionally (no lower bound), and for month resp. week exactly when
completed_at is at or after the month resp. week start; an attempt
completed 365 days before now is therefore excluded from month and week
(whose starts lie at most 31 resp. 7 days back from now) but included in
all. -/
theorem windowFiltered_semantics (attempts : List AttemptRow) (a : AttemptRow)
    (now monthStart weekStart : ℤ)
    (ha : a ∈ attempts)
    (hold : a.completed_at = now - 365 * 86400)
    (hm1 : monthStart ≤ now) (hm2 : now - monthStart ≤ 31 * 86400)
    (hw1 : weekStart ≤ now) (hw2 : now - weekStart ≤ 7 * 86400) :
    (∀ t : ℤ, matchesWindow "all" monthStart weekStart t = true)
    ∧ (∀ t : ℤ, matchesWindow "month" monthStart weekStart t = true ↔ monthStart ≤ t)
    ∧ (∀ t : ℤ, matchesWindow "week" monthStart weekStart t = true ↔ weekStart ≤ t)
    ∧ a ∉ windowFiltered attempts "month" monthStart weekStart
    ∧ a ∉ windowFiltered attempts "week" monthStart weekStart
    ∧ a ∈ windowFiltered attempts "all" monthStart weekStart := by
  have hall : ∀ t : ℤ, matchesWindow "all" monthStart weekStart t = true := by
    intro t; rfl
  refine ⟨hall, ?_, ?_, ?_, ?_, ?_⟩
  · intro t; simp [matchesWindow]
  · intro t; simp [matchesWindow]
  · simp only [windowFiltered, List.mem_filter, not_and]
    intro _
    simp [matchesWindow, hold]
    omega
  · simp only [windowFiltered, List.mem_filter, not_and]
    intro _
    simp [matchesWindow, hold]
    omega
  · exact List.mem_filter.mpr ⟨ha, hall a.completed_at⟩

/-- The attempt completed 365 days before now = 40000000, used by the
window witness. -/
def oldAttempt : AttemptRow :=
  { id := 1, quiz_id := 1, user_id := 1, score := 100, total_questions := 1,
    time_taken := 0, answers := [], completed_at := 40000000 - 365 * 86400 }

/-- C7 witness: with now = 40000000, month start 1000 seconds back and
week start 500 seconds back, the year-old attempt is excluded from the
month and week windows and included in all. -/
theorem windowFiltered_semantics_witness :
    oldAttempt ∉ windowFiltered [oldAttempt] "month" 39999000 39999500
    ∧ oldAttempt ∉ windowFiltered [oldAttempt] "week" 39999000 39999500
    ∧ oldAttempt ∈ windowFiltered [oldAttempt] "all" 39999000 39999500 := by
  have h := windowFiltered_semantics [oldAttempt] oldAttempt 40000000 39999000 39999500
    (List.mem_singleton.mpr rfl) rfl (by norm_num) (by norm_num) (by norm_num) (by norm_num)
  exact ⟨h.2.2.2.1, h.2.2.2.2.1, h.2.2.2.2.2⟩

/-- Every entry produced by get_user_leaderboard carries the rank
1 + (number of grouped users with strictly greater total), the RANK()
value over the user_scores rows. -/
lemma mem_get_user_leaderboard (attempts : List AttemptRow) (time_filter : String)
    (monthStart weekStart : ℤ) (e : LeaderboardEntry)
    (he : e ∈ get_user_leaderboard attempts time_filter monthStart weekStart) :
    ∃ s ∈ userScores (windowFiltered attempts time_filter monthStart weekStart),
      e = toEntry (userScores (windowFiltered attempts time_filter monthStart weekStart)) s := by
  have hperm := List.perm_insertionSort
    (fun a b : LeaderboardEntry => a.rank ≤ b.rank)
    ((userScores (windowFiltered attempts time_filter monthStart weekStart)).map
      (toEntry (userScores (windowFiltered attempts time_filter monthStart weekStart))))
  have he2 : e ∈ (userScores (windowFiltered attempts time_filter monthStart weekStart)).map
      (toEntry (userScores (windowFiltered attempts time_filter monthStart weekStart))) :=
    hperm.mem_iff.mp he
  obtain ⟨s, hs, hse⟩ := List.mem_map.mp he2
  exact ⟨s, hs, hse.symm⟩

/-- Counting entries with total above a bound is the same over the sorted
output as over the grouped rows. -/
lemma leaderboard_countP (attempts : List AttemptRow) (time_filter : String)
    (monthStart weekStart : ℤ) (b : ℤ) :
    ((get_user_leaderboard attempts time_filter monthStart weekStart).filter
        (fun x => decide (b < x.total_score))).length
      = ((userScores (windowFiltered attempts time_filter monthStart weekStart)).filter
          (fun t => decide (b < t.total_score))).length := by
  rw [← List.countP_eq_length_filter, ← List.countP_eq_length_filter]
  have hperm := List.perm_insertionSort
    (fun a b : LeaderboardEntry => a.rank ≤ b.rank)
    ((userScores (windowFiltered attempts time_filter monthStart weekStart)).map
      (toEntry (userScores (windowFiltered attempts time_filter monthStart weekStart))))
  rw [show get_user_leaderboard attempts time_filter monthStart weekStart
      = List.insertionSort (fun a b : LeaderboardEntry => a.rank ≤ b.rank)
          ((userScores (windowFiltered attempts time_filter monthStart weekStart)).map
            (toEntry (userScores (windowFiltered attempts time_filter monthStart weekStart))))
      from rfl]
  rw [hperm.countP_eq, List.countP_map]
  rfl

/-- C1 (amended): get_user_leaderboard assigns rank by SQL RANK() over
total_score descending: every output entry at any position carries rank
1 + (number of output entries with strictly greater total_score), so
equal totals share a rank and the next distinct lower total receives the
previous rank + the count of ties, not previous rank + 1. -/
theorem get_user_leaderboard_rank_spec (attempts : List AttemptRow) (time_filter : String)
    (monthStart weekStart : ℤ) :
    (∀ i : Nat, ∀ h : i < (get_user_leaderboard attempts time_filter monthStart weekStart).length,
      ((get_user_leaderboard attempts time_filter monthStart weekStart).get ⟨i, h⟩).rank
        = 1 + (((get_user_leaderboard attempts time_filter monthStart weekStart).filter
            (fun x => decide
              (((get_user_leaderboard attempts time_filter monthStart weekStart).get
                  ⟨i, h⟩).total_score < x.total_score))).length : ℤ))
    ∧ ∀ e1 ∈ get_user_leaderboard attempts time_filter monthStart weekStart,
      ∀ e2 ∈ get_user_leaderboard attempts time_filter monthStart weekStart,
        e1.total_score = e2.total_score → e1.rank = e2.rank := by
  have key : ∀ e ∈ get_user_leaderboard attempts time_filter monthStart weekStart,
      e.rank = 1 + (((get_user_leaderboard attempts time_filter monthStart weekStart).filter
          (fun x => decide (e.total_score < x.total_score))).length : ℤ) := by
    intro e he
    obtain ⟨s, _, rfl⟩ := mem_get_user_leaderboard attempts time_filter monthStart weekStart e he
    rw [leaderboard_countP]
    rfl
  constructor
  · intro i h
    exact key _ (List.get_mem _ i h)
  · intro e1 he1 e2 he2 htot
    rw [key e1 he1, key e2 he2, htot]

/-- Nine attempts by four users, giving the per-user totals
300, 300, 200, 100 of the dense-rank example. -/
def rankExampleAttempts : List AttemptRow :=
  [{ id := 1, quiz_id := 1, user_id := 1, score := 100, total_questions := 1,
     time_taken := 0, answers := [], completed_at := 0 },
   { id := 2, quiz_id := 1, user_id := 1, score := 100, total_questions := 1,
     time_taken := 0, answers := [], completed_at := 0 },
   { id := 3, quiz_id := 1, user_id := 1, score := 100, total_questions := 1,
     time_taken := 0, answers := [], completed_at := 0 },
   { id := 4, quiz_id := 1, user_id := 2, score := 100, total_questions := 1,
     time_taken := 0, answers := [], completed_at := 0 },
   { id := 5, quiz_id := 1, user_id := 2, score := 100, total_questions := 1,
     time_taken := 0, answers := [], completed_at := 0 },
   { id := 6, quiz_id := 1, user_id := 2, score := 100, total_questions := 1,
     time_taken := 0, answers := [], completed_at := 0 },
   { id := 7, quiz_id := 1, user_id := 3, score := 100, total_questions := 1,
     time_taken := 0, answers := [], completed_at := 0 },
   { id := 8, quiz_id := 1, user_id := 3, score := 100, total_questions := 1,
     time_taken := 0, answers := [], completed_at := 0 },
   { id := 9, quiz_id := 1, user_id := 4, score := 100, total_questions := 1,
     time_taken := 0, answers := [], completed_at := 0 }]

/-- C1 counterexample: on users with totals 300, 300, 200, 100 the
procedure outputs ranks 1, 1, 3, 4 (SQL RANK() with gaps), not the dense
ranks 1, 1, 2, 3 the claim states. -/
theorem get_user_leaderboard_not_dense_counterexample :
    ((get_user_leaderboard rankExampleAttempts "all" 0 0).map LeaderboardEntry.total_score
      = [300, 300, 200, 100])
    ∧ ((get_user_leaderboard rankExampleAttempts "all" 0 0).map LeaderboardEntry.rank
      = [1, 1, 3, 4])
    ∧ ([1, 1, 3, 4] : List ℤ) ≠ [1, 1, 2, 3] := by
  exact ⟨by decide, by decide, by decide⟩

/-- C1 witness: the rank characterization instantiated at position 0 of
the concrete leaderboard. -/
theorem get_user_leaderboard_rank_spec_witness :
    ((get_user_leaderboard rankExampleAttempts "all" 0 0).get ⟨0, by decide⟩).rank
      = 1 + (((get_user_leaderboard rankExampleAttempts "all" 0 0).filter
          (fun x => decide
            (((get_user_leaderboard rankExampleAttempts "all" 0 0).get
                ⟨0, by decide⟩).total_score < x.total_score))).length : ℤ) :=
  (get_user_leaderboard_rank_spec rankExampleAttempts "all" 0 0).1 0 (by decide)
